import Mathlib

/-!
Shallow embedding of the daily-painting-bot prompt generation and delivery
engine (TypeScript sources under `src/`), together with proofs of the
specification claims about it.

Conventions of the embedding:
* TypeScript union string enums become inductive types (`SkillLevel`,
  `Language`), with the string representations used for key building kept
  as explicit functions.
* `Math.floor(Math.random() * n)` — a uniformly random index in `[0, n)` —
  is modelled by an arbitrary natural number parameter reduced modulo `n`.
* `async` functions that can throw become functions into `Except String _`;
  functions that catch every error and return a value are total.
* External effects (the Perplexity API, the WhatsApp API, the D1 database)
  are modelled as oracle parameters; call traces (generation calls, send
  calls, timestamp updates) are returned explicitly so that claims about
  "number of calls" are statable.
* Logging (`Logger`, `logApiUsage`, `logDeliveryReport`) is fire-and-forget
  in the source (errors swallowed) and carries no data dependency, so it is
  not modelled.
-/

namespace Bot

/-- `SkillLevel` from `src/types.ts`: `'beginner' | 'intermediate' | 'advanced'`. -/
inductive SkillLevel
  | beginner
  | intermediate
  | advanced
deriving DecidableEq, Repr

/-- `Language` from `src/types.ts`: `'ro' | 'en'`. -/
inductive Language
  | ro
  | en
deriving DecidableEq, Repr

instance : Fintype SkillLevel :=
  ⟨⟨{SkillLevel.beginner, SkillLevel.intermediate, SkillLevel.advanced}, by decide⟩,
   by intro x; cases x <;> decide⟩

instance : Fintype Language :=
  ⟨⟨{Language.ro, Language.en}, by decide⟩, by intro x; cases x <;> decide⟩

/-- The string value of a `SkillLevel` (the TypeScript enum is a string union). -/
def skillLevelStr : SkillLevel → String
  | SkillLevel.beginner => "beginner"
  | SkillLevel.intermediate => "intermediate"
  | SkillLevel.advanced => "advanced"

/-- The string value of a `Language`. -/
def languageStr : Language → String
  | Language.ro => "ro"
  | Language.en => "en"

/-- `PaintingPrompt` from `src/types.ts`. -/
structure PaintingPrompt where
  text : String
  imageUrl : String
  skillLevel : SkillLevel
  language : Language
deriving DecidableEq, Repr

/-- `User` from `src/types.ts`, restricted to the fields read by the embedded
code paths (`subscribedAt` and `lastPromptSent` are never read by the
scheduler or the prompt handler). -/
structure User where
  phoneNumber : String
  skillLevel : SkillLevel
  language : Language
  isActive : Bool
deriving DecidableEq, Repr

/-- `SendResult` from `src/types.ts`. -/
structure SendResult where
  success : Bool
  messageId : Option String := none
  error : Option String := none
deriving DecidableEq, Repr

/-- One entry of the bulk-failures list (`BulkSendResult.failures` element). -/
structure BulkFailure where
  phoneNumber : String
  error : String
deriving DecidableEq, Repr

/-- `BulkSendResult` from `src/types.ts`. -/
structure BulkSendResult where
  totalSent : Nat
  totalFailed : Nat
  failures : List BulkFailure
deriving DecidableEq, Repr

/-- Association-list lookup, modelling a JS object / `Map` `get`:
first binding of the key wins (JS objects cannot have duplicate keys). -/
def lookupData {α : Type} : List (String × α) → String → Option α
  | [], _ => none
  | (k, v) :: rest, key => if k = key then some v else lookupData rest key

/-- One pre-authored fallback entry (`{ text, imageUrl }` in
`fallback-prompts.ts`). -/
structure FallbackEntry where
  text : String
  imageUrl : String
deriving DecidableEq, Repr

/-- `fallbackPromptsData` from `src/services/fallback-prompts.ts`, verbatim:
a static table keyed by `"skillLevel-language"` holding the candidate
prompts for each combination. -/
def fallbackPromptsData : List (String × List FallbackEntry) :=
  [ ("beginner-ro",
      [ ⟨"Pictează un apus de soare simplu cu culori calde. Folosește doar portocaliu, roșu și galben pentru cer, și o siluetă neagră pentru pământ. Concentrează-te pe amestecarea culorilor pentru tranziții line.",
         "https://imagedelivery.net/placeholder/beginner-sunset-ro.jpg"⟩,
        ⟨"Creează o natură moartă cu trei mere. Practică formele rotunde și umbrele simple. Folosește o singură sursă de lumină și observă cum cade umbra.",
         "https://imagedelivery.net/placeholder/beginner-apples-ro.jpg"⟩,
        ⟨"Pictează un copac simplu în patru anotimpuri. Folosește culori diferite pentru fiecare anotimp: verde pentru primăvară, verde închis pentru vară, portocaliu pentru toamnă, și alb pentru iarnă.",
         "https://imagedelivery.net/placeholder/beginner-tree-seasons-ro.jpg"⟩ ]),
    ("beginner-en",
      [ ⟨"Paint a simple sunset with warm colors. Use only orange, red, and yellow for the sky, and a black silhouette for the ground. Focus on blending colors for smooth transitions.",
         "https://imagedelivery.net/placeholder/beginner-sunset-en.jpg"⟩,
        ⟨"Create a still life with three apples. Practice round shapes and simple shadows. Use a single light source and observe how the shadow falls.",
         "https://imagedelivery.net/placeholder/beginner-apples-en.jpg"⟩,
        ⟨"Paint a simple tree in four seasons. Use different colors for each season: green for spring, dark green for summer, orange for autumn, and white for winter.",
         "https://imagedelivery.net/placeholder/beginner-tree-seasons-en.jpg"⟩ ]),
    ("intermediate-ro",
      [ ⟨"Pictează un peisaj urban cu perspectivă în două puncte. Include clădiri, străzi și oameni în mișcare. Concentrează-te pe proporții corecte și pe crearea adâncimii prin perspectivă.",
         "https://imagedelivery.net/placeholder/intermediate-cityscape-ro.jpg"⟩,
        ⟨"Creează un portret expresiv folosind tehnica chiaroscuro. Joacă-te cu contrastul puternic între lumină și umbră pentru a crea dramă și profunzime. Concentrează-te pe expresia feței.",
         "https://imagedelivery.net/placeholder/intermediate-portrait-ro.jpg"⟩,
        ⟨"Pictează o scenă de pădure cu multiple planuri: prim-plan detaliat, plan mediu și fundal estompat. Folosește perspectiva atmosferică pentru a crea adâncime.",
         "https://imagedelivery.net/placeholder/intermediate-forest-ro.jpg"⟩ ]),
    ("intermediate-en",
      [ ⟨"Paint an urban landscape with two-point perspective. Include buildings, streets, and people in motion. Focus on correct proportions and creating depth through perspective.",
         "https://imagedelivery.net/placeholder/intermediate-cityscape-en.jpg"⟩,
        ⟨"Create an expressive portrait using the chiaroscuro technique. Play with strong contrast between light and shadow to create drama and depth. Focus on facial expression.",
         "https://imagedelivery.net/placeholder/intermediate-portrait-en.jpg"⟩,
        ⟨"Paint a forest scene with multiple planes: detailed foreground, middle ground, and blurred background. Use atmospheric perspective to create depth.",
         "https://imagedelivery.net/placeholder/intermediate-forest-en.jpg"⟩ ]),
    ("advanced-ro",
      [ ⟨"Creează o compoziție abstractă inspirată de emoția \"nostalgie\". Folosește stratificări complexe, texturi variate și o paletă de culori neconvențională. Experimentează cu tehnici mixte și transparențe.",
         "https://imagedelivery.net/placeholder/advanced-abstract-nostalgia-ro.jpg"⟩,
        ⟨"Pictează o scenă figurativă complexă cu multiple personaje în interacțiune. Concentrează-te pe anatomie dinamică, compoziție narativă și iluminare dramatică. Creează o poveste vizuală.",
         "https://imagedelivery.net/placeholder/advanced-figurative-ro.jpg"⟩,
        ⟨"Realizează un peisaj hiper-realist cu reflexii în apă. Captează detalii fine, texturi complexe și jocul subtil al luminii pe suprafețe diferite. Acordă atenție perspectivei reflexiei.",
         "https://imagedelivery.net/placeholder/advanced-hyperrealistic-ro.jpg"⟩ ]),
    ("advanced-en",
      [ ⟨"Create an abstract composition inspired by the emotion \"nostalgia\". Use complex layering, varied textures, and an unconventional color palette. Experiment with mixed media and transparencies.",
         "https://imagedelivery.net/placeholder/advanced-abstract-nostalgia-en.jpg"⟩,
        ⟨"Paint a complex figurative scene with multiple characters in interaction. Focus on dynamic anatomy, narrative composition, and dramatic lighting. Create a visual story.",
         "https://imagedelivery.net/placeholder/advanced-figurative-en.jpg"⟩,
        ⟨"Create a hyper-realistic landscape with water reflections. Capture fine details, complex textures, and the subtle play of light on different surfaces. Pay attention to reflection perspective.",
         "https://imagedelivery.net/placeholder/advanced-hyperrealistic-en.jpg"⟩ ]) ]

/-- `getFallbackPrompt` from `src/services/fallback-prompts.ts`, generalised
over the backing table (the source function closes over the module-level
constant `fallbackPromptsData`; the table parameter lets the key-miss
branches, dead for the actual table, be stated).  `rand` models
`Math.random()`: the selected index `Math.floor(Math.random() * len)` is an
arbitrary value in `[0, len)`, here `rand % len`.  A `lookupData` miss and a
present-but-empty list are merged by `getD []`, exactly as the source's
`!prompts || prompts.length === 0` test treats them. -/
def getFallbackPromptWith (data : List (String × List FallbackEntry)) (rand : Nat)
    (skillLevel : SkillLevel) (language : Language) : PaintingPrompt :=
  let key := skillLevelStr skillLevel ++ "-" ++ languageStr language
  let prompts := (lookupData data key).getD []
  if prompts.length = 0 then
    let fallbackKey := skillLevelStr skillLevel ++ "-en"
    let fallbackPrompts := (lookupData data fallbackKey).getD []
    if fallbackPrompts.length = 0 then
      { text := "Paint something that inspires you today."
        imageUrl := "https://imagedelivery.net/placeholder/default.jpg"
        skillLevel := skillLevel
        language := language }
    else
      let e := fallbackPrompts.getD (rand % fallbackPrompts.length) ⟨"", ""⟩
      { text := e.text, imageUrl := e.imageUrl, skillLevel := skillLevel, language := language }
  else
    let e := prompts.getD (rand % prompts.length) ⟨"", ""⟩
    { text := e.text, imageUrl := e.imageUrl, skillLevel := skillLevel, language := language }

/-- `getFallbackPrompt` applied to the actual static table. -/
def getFallbackPrompt (rand : Nat) (skillLevel : SkillLevel) (language : Language) :
    PaintingPrompt :=
  getFallbackPromptWith fallbackPromptsData rand skillLevel language

/-- `PromptGenerator.generatePrompt` from `src/services/prompt-generator.ts`:
text generation, then image generation keyed off the text; any error is
re-thrown.  The two Perplexity calls are oracles (`textRes`, the outcome of
`generateTextPrompt`, and `imageRes`, the outcome of `generateImage` as a
function of the generated text). -/
def generatePrompt (textRes : Except String String) (imageRes : String → Except String String)
    (skillLevel : SkillLevel) (language : Language) : Except String PaintingPrompt :=
  match textRes with
  | Except.error e => Except.error e
  | Except.ok text =>
    match imageRes text with
    | Except.error e => Except.error e
    | Except.ok imageUrl =>
      Except.ok { text := text, imageUrl := imageUrl, skillLevel := skillLevel, language := language }

/-- `PromptGenerator.generatePromptWithRetry` from
`src/services/prompt-generator.ts`: attempts `generatePrompt` and, on any
error, catches it and returns the fallback-catalog prompt for the same
(skill level, language).  Total: no exception ever propagates. -/
def generatePromptWithRetry (textRes : Except String String)
    (imageRes : String → Except String String) (rand : Nat)
    (skillLevel : SkillLevel) (language : Language) : PaintingPrompt :=
  match generatePrompt textRes imageRes skillLevel language with
  | Except.ok prompt => prompt
  | Except.error _ => getFallbackPrompt rand skillLevel language

/-! ## Generation Client (`src/services/perplexity.client.ts`) -/

/-- Result of one retry loop run: the surfaced result, the backoff delays
slept between attempts (in ms), and the indices of the attempts made. -/
structure RetryTrace (α : Type) where
  result : Except String α
  delays : List Nat
  attempts : List Nat

/-- The retry loop shared by `generateTextPrompt` and `generateImage` in
`src/services/perplexity.client.ts` (both loops are textually identical up
to the operation name in the final error message).  The loop counts
`attempt` from `0` to `maxRetries - 1`; here the recursion is on the
remaining fuel, so the current attempt index is `maxRetries - fuel`.  On a
failed attempt that is not the last, it sleeps `base * 2 ^ attempt` ms and
retries; on the last failed attempt it surfaces `finalErr e` without
sleeping.  The fuel-exhausted base case is the dead `throw` after the loop
(`'Unexpected error in retry logic'`). -/
def retryGo {α : Type} (attemptRes : Nat → Except String α) (maxRetries base : Nat)
    (finalErr : String → String) : Nat → RetryTrace α
  | 0 => ⟨Except.error ("Unexpected error in retry logic"), [], []⟩
  | fuel + 1 =>
    let attempt := maxRetries - (fuel + 1)
    match attemptRes attempt with
    | Except.ok v => ⟨Except.ok v, [], [attempt]⟩
    | Except.error e =>
      if fuel = 0 then
        ⟨Except.error (finalErr e), [], [attempt]⟩
      else
        let rest := retryGo attemptRes maxRetries base finalErr fuel
        ⟨rest.result, base * 2 ^ attempt :: rest.delays, attempt :: rest.attempts⟩

/-- `PerplexityClient.generateTextPrompt`: the retry loop around
`callPerplexityAPI`/`extractPaintingIdea`, whose combined outcome per
attempt is the oracle `attemptRes`.  Defaults in the constructor:
`maxRetries = 3`, `retryDelayMs = 1000`. -/
def generateTextPrompt (attemptRes : Nat → Except String String) (maxRetries base : Nat) :
    RetryTrace String :=
  retryGo attemptRes maxRetries base
    (fun e => "Failed to generate text prompt after " ++ toString maxRetries ++ " attempts: " ++ e)
    maxRetries

/-- Splitter worker over the character list: `acc` is the current fragment,
reversed.  Produces the fragments between separator characters, empty
fragments included, like JS `split` with a single-character separator. -/
def splitByPredAux (p : Char → Bool) : List Char → List Char → List String
  | [], acc => [String.mk acc.reverse]
  | c :: rest, acc =>
    if p c then String.mk acc.reverse :: splitByPredAux p rest []
    else splitByPredAux p rest (c :: acc)

/-- Split a string at every character satisfying `p` (structurally, so that
proofs can evaluate it; behaves like `String.split`). -/
def splitByPred (p : Char → Bool) (s : String) : List String :=
  splitByPredAux p s.data []

/-- Character-wise lower-casing (behaves like `String.toLower`). -/
def toLowerStr (s : String) : String :=
  String.mk (s.data.map Char.toLower)

/-- Character-wise mapping (behaves like `String.map`). -/
def mapChars (f : Char → Char) (s : String) : String :=
  String.mk (s.data.map f)

/-- Join with a separator (behaves like `String.intercalate`; JS
`Array.join`). -/
def joinWith (sep : String) : List String → String
  | [] => ""
  | [x] => x
  | x :: y :: xs => x ++ sep ++ joinWith sep (y :: xs)

/-- `fillerWords` from `PerplexityClient.extractVisualKeywords`, verbatim. -/
def fillerWords : List String :=
  ["the", "a", "an", "and", "or", "but", "in", "on", "at", "to", "for", "of", "with",
   "by", "from", "up", "about", "into", "through", "during", "before", "after",
   "above", "below", "between", "under", "again", "further", "then", "once", "here",
   "there", "when", "where", "why", "how", "all", "both", "each", "few", "more",
   "most", "other", "some", "such", "only", "own", "same", "so", "than", "too",
   "very", "can", "will", "just", "should", "now"]

/-- A JS `\w` word character: ASCII letter, digit or underscore. -/
def isWordChar (c : Char) : Bool :=
  c.isAlphanum || c = '_'

/-- JS `[...new Set(list)]`: deduplicate, keeping the first occurrence of
each element, preserving order. -/
def dedupFirst {α : Type} [DecidableEq α] (l : List α) : List α :=
  l.foldl (fun acc x => if x ∈ acc then acc else acc ++ [x]) []

/-- `PerplexityClient.extractVisualKeywords`: lower-case, replace every
non-word non-whitespace character with a space, split on whitespace, keep
the words longer than 3 characters that are not filler words, deduplicate
keeping first occurrences, take the first 10, join with spaces.
(JS `split(/\s+/)` and Lean `String.split Char.isWhitespace` differ only in
the empty fragments they produce, and empty fragments never pass the
`length > 3` filter.) -/
def extractVisualKeywords (promptText : String) : String :=
  let cleaned :=
    mapChars (fun c => if isWordChar c || c.isWhitespace then c else ' ') (toLowerStr promptText)
  let words :=
    (splitByPred Char.isWhitespace cleaned).filter
      (fun w => decide (3 < w.length) && !(fillerWords.contains w))
  let uniqueWords := (dedupFirst words).take 10
  joinWith (" ") uniqueWords

/-- `PerplexityClient.getImageStyleContext`, verbatim. -/
def getImageStyleContext : SkillLevel → String
  | SkillLevel.beginner => "simple, clear, basic composition, easy to follow"
  | SkillLevel.intermediate => "moderate complexity, interesting techniques, artistic"
  | SkillLevel.advanced => "sophisticated, complex composition, conceptual, artistic mastery"

/-- `PerplexityClient.buildImagePrompt` (its `language` parameter is unused
in the source as well). -/
def buildImagePrompt (visualKeywords : String) (skillLevel : SkillLevel)
    (_language : Language) : String :=
  visualKeywords ++ ", " ++ getImageStyleContext skillLevel ++ ", artistic painting reference"

/-- `PerplexityClient.generateImage`: keyword extraction and image-prompt
construction, then the same retry loop as text generation; the per-attempt
outcome of `callPerplexityImageAPI` on the built image prompt is the
oracle `attemptRes`. -/
def generateImage (attemptRes : String → Nat → Except String String)
    (maxRetries base : Nat) (promptText : String) (skillLevel : SkillLevel)
    (language : Language) : RetryTrace String :=
  let imagePrompt := buildImagePrompt (extractVisualKeywords promptText) skillLevel language
  retryGo (attemptRes imagePrompt) maxRetries base
    (fun e => "Failed to generate image after " ++ toString maxRetries ++ " attempts: " ++ e)
    maxRetries

/-! ## Spec-side keyword pipelines (for the claim about
`extractVisualKeywords`; written from the specification's words, to be
compared with the source-derived definition above) -/

/-- The keyword pipeline exactly as the claim words it: lower-case, strip
punctuation, remove the stop-word list (and the empty fragments produced by
tokenisation), keep the first 10 distinct remaining tokens in order of
first occurrence.  No length filter. -/
def claimedVisualTokens (promptText : String) : List String :=
  let cleaned :=
    mapChars (fun c => if isWordChar c || c.isWhitespace then c else ' ') (toLowerStr promptText)
  let words :=
    (splitByPred Char.isWhitespace cleaned).filter
      (fun w => !(w == "") && !(fillerWords.contains w))
  (dedupFirst words).take 10

/-- The keyword pipeline as the amended claim words it: as
`claimedVisualTokens`, but tokens of length at most 3 are removed as well. -/
def specVisualTokens (promptText : String) : List String :=
  let cleaned :=
    mapChars (fun c => if isWordChar c || c.isWhitespace then c else ' ') (toLowerStr promptText)
  let words :=
    (splitByPred Char.isWhitespace cleaned).filter
      (fun w => decide (3 < w.length) && !(fillerWords.contains w))
  (dedupFirst words).take 10

/-! ## WhatsApp client (`src/services/whatsapp.client.ts`) -/

/-- One element of the `messages` array passed to
`WhatsAppClient.sendBulkMessages` (`imageUrl` is optional there). -/
structure BulkMessage where
  phoneNumber : String
  message : String
  imageUrl : Option String
deriving DecidableEq, Repr

/-- The body of the `for` loop in `sendBulkMessages`: one send attempt.
The oracle `sendOne` is the outcome of `sendMessageWithImage`/`sendMessage`
for the given message: `Except.ok r` a returned `SendResult`,
`Except.error e` an unexpected exception (caught by the loop's `catch`). -/
def bulkStep (sendOne : BulkMessage → Except String SendResult)
    (acc : BulkSendResult) (msg : BulkMessage) : BulkSendResult :=
  match sendOne msg with
  | Except.ok r =>
    if r.success then
      { acc with totalSent := acc.totalSent + 1 }
    else
      { acc with totalFailed := acc.totalFailed + 1,
                 failures := acc.failures ++ [⟨msg.phoneNumber, r.error.getD ("Unknown error")⟩] }
  | Except.error e =>
    { acc with totalFailed := acc.totalFailed + 1,
               failures := acc.failures ++ [⟨msg.phoneNumber, e⟩] }

/-- `WhatsAppClient.sendBulkMessages`: iterate the list, counting successes
and failures and collecting per-recipient failure entries; total (no
exception escapes). -/
def sendBulkMessages (sendOne : BulkMessage → Except String SendResult)
    (messages : List BulkMessage) : BulkSendResult :=
  messages.foldl (bulkStep sendOne) ⟨0, 0, []⟩

/-- Whether the send attempt for `m` fails (returned `success: false`, or
threw). Derived classifier used to state the bulk-send claim. -/
def attemptFailed (sendOne : BulkMessage → Except String SendResult)
    (m : BulkMessage) : Bool :=
  match sendOne m with
  | Except.ok r => !r.success
  | Except.error _ => true

/-- The error string recorded for a failed send attempt for `m`. -/
def attemptError (sendOne : BulkMessage → Except String SendResult)
    (m : BulkMessage) : String :=
  match sendOne m with
  | Except.ok r => r.error.getD ("Unknown error")
  | Except.error e => e

/-! ## Scheduler (`src/services/scheduler.ts`) -/

/-- `Scheduler.getCombinationKey`: `` `${skillLevel}-${language}` ``. -/
def getCombinationKey (skillLevel : SkillLevel) (language : Language) : String :=
  skillLevelStr skillLevel ++ "-" ++ languageStr language

/-- Inverse of `skillLevelStr` on the enum's string values. -/
def skillLevelOfString (s : String) : Option SkillLevel :=
  if s = "beginner" then some SkillLevel.beginner
  else if s = "intermediate" then some SkillLevel.intermediate
  else if s = "advanced" then some SkillLevel.advanced
  else none

/-- Inverse of `languageStr` on the enum's string values. -/
def languageOfString (s : String) : Option Language :=
  if s = "ro" then some Language.ro
  else if s = "en" then some Language.en
  else none

/-- `Scheduler.parseCombinationKey`: `key.split('-')` destructured into its
first two fragments, cast to the enums.  The TypeScript `as` casts are
unchecked; the `Option` records whether the fragments are actual enum
values (they always are for keys built by `getCombinationKey`, see
`parseCombinationKey_getCombinationKey`). -/
def parseCombinationKey (key : String) : Option (SkillLevel × Language) :=
  match splitByPred (fun c => c = '-') key with
  | s :: l :: _ =>
    match skillLevelOfString s, languageOfString l with
    | some sk, some la => some (sk, la)
    | _, _ => none
  | _ => none

/-- The `Set` of combination keys built by the first loop of
`Scheduler.generatePromptsForAllCombinations`: JS `Set` insertion keeps the
first occurrence of each key, in iteration order. -/
def combinationKeys (users : List User) : List String :=
  dedupFirst (users.map (fun u => getCombinationKey u.skillLevel u.language))

/-- The (skill level, language) arguments of the Prompt Generator calls made
by `generatePromptsForAllCombinations`, in call order: one call per element
of the combinations set. -/
def generationCalls (users : List User) : List (SkillLevel × Language) :=
  (combinationKeys users).filterMap parseCombinationKey

/-- `Scheduler.generatePromptsForAllCombinations`: for each key of the
combinations set, parse it back and call the Prompt Generator once, storing
the result in the prompts map (modelled as an association list; the keys
are pairwise distinct, so `Map` and association list agree).  The generator
oracle `gen` stands for `promptGenerator.generatePromptWithRetry`, which is
total (see the fallback claims). -/
def generatePromptsForAllCombinations (gen : SkillLevel → Language → PaintingPrompt)
    (users : List User) : List (String × PaintingPrompt) :=
  (combinationKeys users).filterMap
    (fun key => (parseCombinationKey key).map (fun sl => (key, gen sl.1 sl.2)))

/-- The message-building `users.map` at the start of
`Scheduler.sendPromptsToUsers`: looks each user's combination key up in the
prompts map and throws (`Except.error`) on a miss — the
`No prompt found for combination` branch. -/
def buildMessages : List User → List (String × PaintingPrompt) → Except String (List BulkMessage)
  | [], _ => Except.ok []
  | u :: rest, prompts =>
    match lookupData prompts (getCombinationKey u.skillLevel u.language) with
    | none =>
      Except.error ("No prompt found for combination: "
        ++ getCombinationKey u.skillLevel u.language)
    | some p =>
      match buildMessages rest prompts with
      | Except.ok ms => Except.ok (⟨u.phoneNumber, p.text, some p.imageUrl⟩ :: ms)
      | Except.error e => Except.error e

/-- The reconciliation loop at the end of `Scheduler.sendPromptsToUsers`:
for each user, if its phone number is not among the bulk failures, attempt
`updateLastPromptSent`; the oracle `updateOk` tells whether that update
succeeds — a throwing update is caught and logged, so the loop continues
either way.  Returns the phone numbers whose timestamp was actually
advanced, in order. -/
def reconcile (updateOk : String → Bool) (users : List User)
    (failures : List BulkFailure) : List String :=
  users.foldl
    (fun advanced u =>
      if failures.any (fun f => f.phoneNumber == u.phoneNumber) then advanced
      else if updateOk u.phoneNumber then advanced ++ [u.phoneNumber]
      else advanced)
    []

/-- The observable outcome of one `sendPromptsToUsers` call: the bulk-send
result it returns, the messages it attempted (the send calls), and the
recipients whose last-delivery timestamp was advanced. -/
structure SendRun where
  result : BulkSendResult
  messages : List BulkMessage
  advanced : List String
deriving DecidableEq, Repr

/-- `Scheduler.sendPromptsToUsers`: build the messages (throwing on a
missing combination), bulk-send them, then reconcile timestamps.  The
returned value of the source method is the `result` component; `messages`
and `advanced` are its call trace. -/
def sendPromptsToUsers (sendOne : BulkMessage → Except String SendResult)
    (updateOk : String → Bool) (users : List User)
    (prompts : List (String × PaintingPrompt)) : Except String SendRun :=
  match buildMessages users prompts with
  | Except.error e => Except.error e
  | Except.ok messages =>
    let result := sendBulkMessages sendOne messages
    let advanced := reconcile updateOk users result.failures
    Except.ok ⟨result, messages, advanced⟩

/-- `DeliveryReport` from `src/types.ts` (the `apiUsage` sub-object is
inlined; the wall-clock `timestamp` and `executionTime` are not modelled). -/
structure DeliveryReport where
  totalUsers : Nat
  successCount : Nat
  failureCount : Nat
  promptsGenerated : Nat
  imagesGenerated : Nat
  perplexityTokens : Nat
  imageGenerations : Nat
  whatsappMessages : Nat
deriving DecidableEq, Repr

/-- `Scheduler.createEmptyReport`: the all-zero report returned when no
users are active. -/
def createEmptyReport : DeliveryReport :=
  { totalUsers := 0, successCount := 0, failureCount := 0, promptsGenerated := 0,
    imagesGenerated := 0, perplexityTokens := 0, imageGenerations := 0,
    whatsappMessages := 0 }

/-- The collaborators of one `executeDailyDelivery` run: the loaded
active-subscriber snapshot and the three effect oracles. -/
structure SchedulerDeps where
  activeUsers : List User
  gen : SkillLevel → Language → PaintingPrompt
  sendOne : BulkMessage → Except String SendResult
  updateOk : String → Bool

/-- The observable outcome of one batch run: the report plus the call
traces (generation calls, send calls, advanced timestamps). -/
structure RunTrace where
  report : DeliveryReport
  genCalls : List (SkillLevel × Language)
  sendCalls : List BulkMessage
  advanced : List String

/-- `Scheduler.executeDailyDelivery`: load the snapshot; if it is empty,
short-circuit to the empty report with no generation and no send calls;
otherwise generate one prompt per combination, send to all users, and
report.  The outer `try/catch` logs and rethrows, so errors pass through
unchanged (`Except`). -/
def executeDailyDelivery (deps : SchedulerDeps) : Except String RunTrace :=
  if deps.activeUsers.length = 0 then
    Except.ok ⟨createEmptyReport, [], [], []⟩
  else
    let prompts := generatePromptsForAllCombinations deps.gen deps.activeUsers
    match sendPromptsToUsers deps.sendOne deps.updateOk deps.activeUsers prompts with
    | Except.error e => Except.error e
    | Except.ok run =>
      Except.ok
        ⟨{ totalUsers := deps.activeUsers.length,
           successCount := run.result.totalSent,
           failureCount := run.result.totalFailed,
           promptsGenerated := prompts.length,
           imagesGenerated := prompts.length,
           perplexityTokens := 0,
           imageGenerations := prompts.length,
           whatsappMessages := deps.activeUsers.length },
         generationCalls deps.activeUsers, run.messages, run.advanced⟩

/-! ## Internationalization (`src/i18n/messages.ts` and `src/i18n/index.ts`,
whose sources are embedded in `src/CONFIGURATION.md`) -/

/-- `MessageKey` from `src/i18n/messages.ts`. -/
inductive MessageKey
  | welcome
  | subscriptionConfirmed
  | skillUpdated
  | languageUpdated
  | unsubscribeConfirmed
  | helpText
  | errorInvalidSkill
  | errorInvalidLanguage
  | errorNotSubscribed
  | errorAlreadySubscribed
  | errorUnknownCommand
  | errorGeneral
  | promptSkillLevel
  | promptLanguage
  | currentSkillLevel
  | currentLanguage
deriving DecidableEq, Repr

/-- `messages` from `src/i18n/messages.ts`, verbatim: the message templates
per language and key.  The TypeScript value is a `Record` fully populated
over the two closed enums, i.e. a total function. -/
def messages (language : Language) : MessageKey → String :=
  match language with
  | Language.ro => fun key =>
    match key with
    | MessageKey.welcome => "Bine ai venit la Bot-ul de Pictură Zilnică! 🎨\n\nVei primi în fiecare zi o idee nouă de pictură adaptată nivelului tău de experiență."
    | MessageKey.subscriptionConfirmed => "Abonarea ta a fost confirmată! ✅\n\nVei primi prima ta idee de pictură mâine dimineață la ora 8:00 UTC."
    | MessageKey.skillUpdated => "Nivelul tău de experiență a fost actualizat cu succes! ✅\n\nDe acum înainte vei primi idei de pictură adaptate noului tău nivel."
    | MessageKey.languageUpdated => "Limba ta preferată a fost actualizată cu succes! ✅\n\nDe acum înainte vei primi toate mesajele în limba selectată."
    | MessageKey.unsubscribeConfirmed => "Dezabonarea ta a fost confirmată. 👋\n\nNu vei mai primi idei de pictură zilnice. Dacă vrei să te reabonezi, trimite \"subscribe\"."
    | MessageKey.helpText => "📋 Comenzi disponibile:\n\n• subscribe / abonare - Abonează-te pentru a primi idei zilnice\n• update_skill / nivel - Actualizează nivelul tău de experiență\n• update_language / limba - Schimbă limba preferată\n• get_prompt / idee - Primește o idee de pictură acum\n• unsubscribe / dezabonare - Dezabonează-te\n• help / ajutor - Afișează acest mesaj"
    | MessageKey.errorInvalidSkill => "❌ Nivel de experiență invalid. Te rog alege unul dintre:\n• 1 sau beginner (începător)\n• 2 sau intermediate (intermediar)\n• 3 sau advanced (avansat)"
    | MessageKey.errorInvalidLanguage => "❌ Limbă invalidă. Te rog alege una dintre limbile suportate."
    | MessageKey.errorNotSubscribed => "❌ Nu ești abonat. Trimite \"subscribe\" pentru a te abona."
    | MessageKey.errorAlreadySubscribed => "ℹ️ Ești deja abonat! Nivelul tău actual: {skillLevel}, Limba: {language}"
    | MessageKey.errorUnknownCommand => "❌ Comandă necunoscută. Trimite \"help\" pentru a vedea comenzile disponibile."
    | MessageKey.errorGeneral => "❌ A apărut o eroare. Te rog încearcă din nou mai târziu."
    | MessageKey.promptSkillLevel => "Te rog alege nivelul tău de experiență:\n• 1 sau beginner (începător)\n• 2 sau intermediate (intermediar)\n• 3 sau advanced (avansat)"
    | MessageKey.promptLanguage => "Te rog alege limba preferată:\n• ro (Română)\n• en (English)"
    | MessageKey.currentSkillLevel => "Nivelul tău actual de experiență: {skillLevel}"
    | MessageKey.currentLanguage => "Limba ta actuală: {language}"
  | Language.en => fun key =>
    match key with
    | MessageKey.welcome => "Welcome to Daily Painting Bot! 🎨\n\nYou will receive a new painting idea every day adapted to your skill level."
    | MessageKey.subscriptionConfirmed => "Your subscription has been confirmed! ✅\n\nYou will receive your first painting idea tomorrow morning at 8:00 AM UTC."
    | MessageKey.skillUpdated => "Your skill level has been updated successfully! ✅\n\nFrom now on you will receive painting ideas adapted to your new level."
    | MessageKey.languageUpdated => "Your preferred language has been updated successfully! ✅\n\nFrom now on you will receive all messages in the selected language."
    | MessageKey.unsubscribeConfirmed => "Your unsubscription has been confirmed. 👋\n\nYou will no longer receive daily painting ideas. If you want to resubscribe, send \"subscribe\"."
    | MessageKey.helpText => "📋 Available commands:\n\n• subscribe - Subscribe to receive daily ideas\n• update_skill - Update your skill level\n• update_language - Change preferred language\n• get_prompt - Get a painting idea now\n• unsubscribe - Unsubscribe\n• help - Show this message"
    | MessageKey.errorInvalidSkill => "❌ Invalid skill level. Please choose one of:\n• 1 or beginner\n• 2 or intermediate\n• 3 or advanced"
    | MessageKey.errorInvalidLanguage => "❌ Invalid language. Please choose one of the supported languages."
    | MessageKey.errorNotSubscribed => "❌ You are not subscribed. Send \"subscribe\" to subscribe."
    | MessageKey.errorAlreadySubscribed => "ℹ️ You are already subscribed! Your current level: {skillLevel}, Language: {language}"
    | MessageKey.errorUnknownCommand => "❌ Unknown command. Send \"help\" to see available commands."
    | MessageKey.errorGeneral => "❌ An error occurred. Please try again later."
    | MessageKey.promptSkillLevel => "Please choose your skill level:\n• 1 or beginner\n• 2 or intermediate\n• 3 or advanced"
    | MessageKey.promptLanguage => "Please choose your preferred language:\n• ro (Romanian)\n• en (English)"
    | MessageKey.currentSkillLevel => "Your current skill level: {skillLevel}"
    | MessageKey.currentLanguage => "Your current language: {language}"

/-- `DEFAULT_LANGUAGE` from `src/i18n/messages.ts`:
`export const DEFAULT_LANGUAGE: Language = 'ro';`. -/
def DEFAULT_LANGUAGE : Language := Language.ro

/-- Worker for `replacePlaceholders`: replace every non-overlapping
occurrence of `pattern` (non-empty, guarded by the caller) left-to-right,
as JS `String.replace` with a global regexp of the literal pattern does.
Structural recursion on fuel (any fuel ≥ the text length is exact, since
every step consumes at least one character). -/
def replaceAllAux (pattern repl : List Char) : Nat → List Char → List Char
  | 0, cs => cs
  | _ + 1, [] => []
  | fuel + 1, c :: cs =>
    if pattern.isPrefixOf (c :: cs) then
      repl ++ replaceAllAux pattern repl fuel (List.drop pattern.length (c :: cs))
    else
      c :: replaceAllAux pattern repl fuel cs

/-- Replace every occurrence of `pattern` in `s` by `repl` (JS
`result.replace(new RegExp(placeholder, 'g'), value)` on a literal
placeholder pattern). -/
def replaceAll (s pattern repl : String) : String :=
  if pattern.data = [] then s
  else String.mk (replaceAllAux pattern.data repl.data (s.data.length + 1) s.data)

/-- `replacePlaceholders` from `src/i18n/index.ts`: with no replacements
object the message is returned unchanged; otherwise each `(key, value)`
entry rewrites every occurrence of the placeholder `\x7bkey\x7d` in turn. -/
def replacePlaceholders (message : String)
    (replacements : Option (List (String × String))) : String :=
  match replacements with
  | none => message
  | some rs =>
    rs.foldl (fun result kv => replaceAll result ("\x7b" ++ kv.1 ++ "\x7d") kv.2) message

/-- `getMessage` from `src/i18n/index.ts`: look the template up for the
given language and key and apply the placeholder replacements.  The
source's two miss-fallback branches (`!languageMessages`, `!message`) are
unreachable there because `messages` is fully populated over the closed
`Language` and `MessageKey` enums, which the total function `messages`
captures; they therefore have no residue in the embedding. -/
def getMessage (key : MessageKey) (language : Language)
    (replacements : Option (List (String × String))) : String :=
  let languageMessages := messages language
  let message := languageMessages key
  replacePlaceholders message replacements

/-! ## On-demand prompt handler (`src/handlers/prompt.handler.ts`) -/

/-- The collaborators of `PromptHandler.handleGetPrompt`: the user
repository lookup (which may throw), the total Prompt Generator, the
single-image send (total: `sendMessageWithImage` catches every error into a
`SendResult`), and the timestamp update (which may throw). -/
structure PromptHandlerDeps where
  getUser : String → Except String (Option User)
  gen : SkillLevel → Language → PaintingPrompt
  sendWithImage : String → String → String → SendResult
  updateLastPromptSent : String → Except String Unit

/-- The observable outcome of one `handleGetPrompt` call: the returned
response string and the generation / send call traces. -/
structure HandlerTrace where
  response : String
  genCalls : List (SkillLevel × Language)
  sendCalls : List (String × String × String)
deriving DecidableEq, Repr

/-- The `catch` block of `handleGetPrompt`: try to fetch the user again for
its language (`user?.language || DEFAULT_LANGUAGE`); a second throw is
caught into the default language. -/
def handleGetPromptCatch (deps : PromptHandlerDeps) (phoneNumber : String) : String :=
  match deps.getUser phoneNumber with
  | Except.ok (some u) => getMessage MessageKey.errorGeneral u.language none
  | Except.ok none => getMessage MessageKey.errorGeneral DEFAULT_LANGUAGE none
  | Except.error _ => getMessage MessageKey.errorGeneral DEFAULT_LANGUAGE none

/-- `PromptHandler.handleGetPrompt`: look the user up; unknown or inactive
users get the not-subscribed message with no generation and no send call;
otherwise generate (total), send with image, on send failure return the
general error, else update the timestamp (a throw lands in the catch
block) and return the empty webhook response. -/
def handleGetPrompt (deps : PromptHandlerDeps) (phoneNumber : String) : HandlerTrace :=
  match deps.getUser phoneNumber with
  | Except.error _ => ⟨handleGetPromptCatch deps phoneNumber, [], []⟩
  | Except.ok none => ⟨getMessage MessageKey.errorNotSubscribed DEFAULT_LANGUAGE none, [], []⟩
  | Except.ok (some user) =>
    if !user.isActive then
      ⟨getMessage MessageKey.errorNotSubscribed DEFAULT_LANGUAGE none, [], []⟩
    else
      let prompt := deps.gen user.skillLevel user.language
      let sendResult := deps.sendWithImage phoneNumber prompt.text prompt.imageUrl
      if !sendResult.success then
        ⟨getMessage MessageKey.errorGeneral user.language none,
         [(user.skillLevel, user.language)], [(phoneNumber, prompt.text, prompt.imageUrl)]⟩
      else
        match deps.updateLastPromptSent phoneNumber with
        | Except.ok _ =>
          ⟨"", [(user.skillLevel, user.language)], [(phoneNumber, prompt.text, prompt.imageUrl)]⟩
        | Except.error _ =>
          ⟨handleGetPromptCatch deps phoneNumber,
           [(user.skillLevel, user.language)], [(phoneNumber, prompt.text, prompt.imageUrl)]⟩

/-! ## Fixtures for concrete instantiations of the claim theorems -/

/-- A concrete active subscriber. -/
def wUser : User := ⟨"+40700000001", SkillLevel.beginner, Language.ro, true⟩

/-- A concrete inactive subscriber. -/
def wInactiveUser : User := ⟨"+40700000002", SkillLevel.intermediate, Language.en, false⟩

/-- A concrete total prompt generator. -/
def wGen (s : SkillLevel) (l : Language) : PaintingPrompt :=
  ⟨"Paint a cat.", "https://example.org/cat.jpg", s, l⟩

/-- A concrete always-succeeding single-send oracle. -/
def wSendOne : BulkMessage → Except String SendResult :=
  fun _ => Except.ok ⟨true, none, none⟩

/-- A concrete subscriber list with a duplicated (tier, language) pair. -/
def wUsersDup : List User :=
  [⟨"+40700000001", SkillLevel.beginner, Language.ro, true⟩,
   ⟨"+40700000003", SkillLevel.beginner, Language.ro, true⟩,
   ⟨"+40700000004", SkillLevel.advanced, Language.en, true⟩]

/-- Scheduler collaborators with an empty active-subscriber snapshot. -/
def wEmptyDeps : SchedulerDeps :=
  { activeUsers := [], gen := wGen, sendOne := wSendOne, updateOk := fun _ => true }

/-- Handler collaborators whose repository knows only an inactive subscriber. -/
def wInactiveHandlerDeps : PromptHandlerDeps :=
  { getUser := fun _ => Except.ok (some wInactiveUser),
    gen := wGen,
    sendWithImage := fun _ _ _ => ⟨true, none, none⟩,
    updateLastPromptSent := fun _ => Except.ok () }

/-- A single-user list for the reconciliation instantiation. -/
def wUsersOne : List User := [wUser]

/-- A prompts map holding exactly the one combination of `wUsersOne`. -/
def wPromptsOne : List (String × PaintingPrompt) :=
  [(getCombinationKey SkillLevel.beginner Language.ro,
    wGen SkillLevel.beginner Language.ro)]

/-- The run `sendPromptsToUsers` produces on the fixtures above. -/
def wRunOne : SendRun :=
  { result := ⟨1, 0, []⟩,
    messages := [⟨"+40700000001", "Paint a cat.", some "https://example.org/cat.jpg"⟩],
    advanced := ["+40700000001"] }

/-! ## Helper lemmas -/

theorem lookupData_isSome_of_mem {α : Type} {l : List (String × α)} {k : String} {v : α} :
    (k, v) ∈ l → ∃ w, lookupData l k = some w := by
  induction l with
  | nil => intro h; cases h
  | cons p rest ih =>
    intro h
    obtain ⟨p₁, p₂⟩ := p
    rcases List.mem_cons.mp h with h | h
    · obtain ⟨rfl, rfl⟩ := Prod.mk.injEq .. ▸ h
      exact ⟨v, by simp [lookupData]⟩
    · by_cases hk : p₁ = k
      · exact ⟨p₂, by simp [lookupData, hk]⟩
      · obtain ⟨w, hw⟩ := ih h
        exact ⟨w, by simpa [lookupData, hk] using hw⟩

theorem lookupData_mem {α : Type} {l : List (String × α)} {k : String} {v : α} :
    lookupData l k = some v → (k, v) ∈ l := by
  induction l with
  | nil => intro h; simp [lookupData] at h
  | cons p rest ih =>
    intro h
    obtain ⟨p₁, p₂⟩ := p
    by_cases hk : p₁ = k
    · subst hk
      simp [lookupData] at h
      simp [h]
    · simp [lookupData, hk] at h
      exact List.mem_cons_of_mem _ (ih h)

theorem mem_foldl_insert {α : Type} [DecidableEq α] (l : List α) (init : List α) (x : α) :
    x ∈ l.foldl (fun acc y => if y ∈ acc then acc else acc ++ [y]) init
      ↔ x ∈ init ∨ x ∈ l := by
  induction l generalizing init with
  | nil => simp
  | cons a rest ih =>
    by_cases ha : a ∈ init
    · simp only [List.foldl_cons, if_pos ha, ih]
      constructor
      · rintro (h | h)
        · exact Or.inl h
        · exact Or.inr (List.mem_cons_of_mem _ h)
      · rintro (h | h)
        · exact Or.inl h
        · rcases List.mem_cons.mp h with rfl | h
          · exact Or.inl ha
          · exact Or.inr h
    · simp only [List.foldl_cons, if_neg ha, ih, List.mem_append, List.mem_singleton,
        List.mem_cons]
      tauto

theorem nodup_foldl_insert {α : Type} [DecidableEq α] (l : List α) (init : List α)
    (h : init.Nodup) :
    (l.foldl (fun acc y => if y ∈ acc then acc else acc ++ [y]) init).Nodup := by
  induction l generalizing init with
  | nil => simpa using h
  | cons a rest ih =>
    by_cases ha : a ∈ init
    · simpa [List.foldl_cons, if_pos ha] using ih init h
    · refine ?_
      have hnd : (init ++ [a]).Nodup := by
        simp [List.nodup_append, h, ha]
      simpa [List.foldl_cons, if_neg ha] using ih (init ++ [a]) hnd

theorem mem_dedupFirst {α : Type} [DecidableEq α] (l : List α) (x : α) :
    x ∈ dedupFirst l ↔ x ∈ l := by
  simpa [dedupFirst] using mem_foldl_insert l [] x

theorem nodup_dedupFirst {α : Type} [DecidableEq α] (l : List α) :
    (dedupFirst l).Nodup :=
  nodup_foldl_insert l [] List.nodup_nil

theorem toFinset_dedupFirst {α : Type} [DecidableEq α] (l : List α) :
    (dedupFirst l).toFinset = l.toFinset := by
  ext x
  simp [mem_dedupFirst]

theorem length_dedupFirst {α : Type} [DecidableEq α] (l : List α) :
    (dedupFirst l).length = l.toFinset.card := by
  rw [← toFinset_dedupFirst, List.toFinset_card_of_nodup (nodup_dedupFirst l)]

theorem length_filterMap_of_forall_isSome {α β : Type} (f : α → Option β) (l : List α)
    (h : ∀ a ∈ l, (f a).isSome) : (l.filterMap f).length = l.length := by
  induction l with
  | nil => rfl
  | cons a rest ih =>
    obtain ⟨b, hb⟩ := Option.isSome_iff_exists.mp (h a (List.mem_cons_self a rest))
    rw [List.filterMap_cons, hb, List.length_cons, ih fun x hx => h x (List.mem_cons_of_mem _ hx)]
    rfl

theorem parseCombinationKey_getCombinationKey (s : SkillLevel) (l : Language) :
    parseCombinationKey (getCombinationKey s l) = some (s, l) := by
  cases s <;> cases l <;> decide

theorem getCombinationKey_injective :
    Function.Injective (fun p : SkillLevel × Language => getCombinationKey p.1 p.2) := by
  intro p q h
  have hp := parseCombinationKey_getCombinationKey p.1 p.2
  have hq := parseCombinationKey_getCombinationKey q.1 q.2
  simp only at h
  rw [h, hq] at hp
  obtain ⟨p₁, p₂⟩ := p
  obtain ⟨q₁, q₂⟩ := q
  simpa using hp.symm

theorem map_toFinset_image {α β : Type} [DecidableEq α] [DecidableEq β]
    (f : α → β) (l : List α) : (l.map f).toFinset = l.toFinset.image f := by
  ext x
  simp [List.mem_map, Finset.mem_image]

theorem fallback_entries_sound :
    ∀ p ∈ fallbackPromptsData, ∀ e ∈ p.2, e.text ≠ "" ∧ e.imageUrl ≠ "" := by
  decide

theorem lookup_getD_mem {α : Type} (data : List (String × List α)) (key : String)
    (i : Nat) (d : α) (hne : ((lookupData data key).getD []).length ≠ 0) :
    ∃ l₀, lookupData data key = some l₀ ∧
      l₀.getD (i % l₀.length) d ∈ l₀ ∧ (key, l₀) ∈ data := by
  cases h : lookupData data key with
  | none => rw [h] at hne; simp at hne
  | some l₀ =>
    rw [h] at hne
    simp only [Option.getD_some] at hne
    have hlen : 0 < l₀.length := Nat.pos_of_ne_zero hne
    have hidx : i % l₀.length < l₀.length := Nat.mod_lt _ hlen
    refine ⟨l₀, rfl, ?_, lookupData_mem h⟩
    rw [List.getD_eq_getElem _ _ hidx]
    exact List.getElem_mem hidx

theorem getFallbackPromptWith_fields (data : List (String × List FallbackEntry))
    (rand : Nat) (s : SkillLevel) (l : Language) :
    (getFallbackPromptWith data rand s l).skillLevel = s ∧
    (getFallbackPromptWith data rand s l).language = l := by
  simp only [getFallbackPromptWith]
  split
  · split
    · exact ⟨rfl, rfl⟩
    · exact ⟨rfl, rfl⟩
  · exact ⟨rfl, rfl⟩

theorem getFallbackPromptWith_sound (data : List (String × List FallbackEntry))
    (rand : Nat) (s : SkillLevel) (l : Language)
    (hdata : ∀ p ∈ data, ∀ e ∈ p.2, e.text ≠ "" ∧ e.imageUrl ≠ "") :
    (getFallbackPromptWith data rand s l).text ≠ "" ∧
    (getFallbackPromptWith data rand s l).imageUrl ≠ "" := by
  simp only [getFallbackPromptWith]
  split
  · split
    · exact ⟨by simp, by simp⟩
    · rename_i h2
      obtain ⟨l₀, hl₀, hmem, hdat⟩ :=
        lookup_getD_mem data (skillLevelStr s ++ "-en") rand ⟨"", ""⟩ h2
      rw [hl₀]
      simp only [Option.getD_some]
      exact hdata _ hdat _ (by simpa [hl₀] using hmem)
  · rename_i h1
    obtain ⟨l₀, hl₀, hmem, hdat⟩ :=
      lookup_getD_mem data (skillLevelStr s ++ "-" ++ languageStr l) rand ⟨"", ""⟩ h1
    rw [hl₀]
    simp only [Option.getD_some]
    exact hdata _ hdat _ (by simpa [hl₀] using hmem)

theorem getFallbackPrompt_nonempty (rand : Nat) (s : SkillLevel) (l : Language) :
    (getFallbackPrompt rand s l).text ≠ "" ∧ (getFallbackPrompt rand s l).imageUrl ≠ "" :=
  getFallbackPromptWith_sound fallbackPromptsData rand s l fallback_entries_sound

theorem toFinset_card_eq_length_iff {α : Type} [DecidableEq α] (l : List α) :
    l.toFinset.card = l.length ↔ l.Nodup := by
  simpa using Multiset.toFinset_card_eq_card_iff_nodup (m := (l : Multiset α))

theorem mem_combinationKeys (users : List User) (k : String) :
    k ∈ combinationKeys users ↔
      k ∈ users.map (fun u => getCombinationKey u.skillLevel u.language) := by
  simp [combinationKeys, mem_dedupFirst]

theorem combinationKeys_parse (users : List User) :
    ∀ k ∈ combinationKeys users,
      ∃ s l, k = getCombinationKey s l ∧ parseCombinationKey k = some (s, l) := by
  intro k hk
  obtain ⟨u, _, rfl⟩ := List.mem_map.mp ((mem_combinationKeys users k).mp hk)
  exact ⟨u.skillLevel, u.language, rfl,
    parseCombinationKey_getCombinationKey u.skillLevel u.language⟩

theorem length_combinationKeys (users : List User) :
    (combinationKeys users).length
      = ((users.map (fun u => (u.skillLevel, u.language))).toFinset).card := by
  rw [combinationKeys, length_dedupFirst]
  have hcomp : users.map (fun u => getCombinationKey u.skillLevel u.language)
      = (users.map (fun u => (u.skillLevel, u.language))).map
          (fun p => getCombinationKey p.1 p.2) := by
    simp [List.map_map]
  rw [hcomp, map_toFinset_image, Finset.card_image_of_injective _ getCombinationKey_injective]

/-- C1: in every batch run the number of prompt-generation calls, and the
number of entries of the prompts map, both equal the number of distinct
(skill level, language) pairs among the run's active subscribers; this
never exceeds the subscriber count, and is strictly below it whenever two
subscribers share a pair. -/
theorem generatePrompts_calls_eq_distinct_pairs
    (gen : SkillLevel → Language → PaintingPrompt) (users : List User) :
    (generationCalls users).length
        = ((users.map (fun u => (u.skillLevel, u.language))).toFinset).card
  ∧ (generatePromptsForAllCombinations gen users).length
        = ((users.map (fun u => (u.skillLevel, u.language))).toFinset).card
  ∧ ((users.map (fun u => (u.skillLevel, u.language))).toFinset).card ≤ users.length
  ∧ (¬ (users.map (fun u => (u.skillLevel, u.language))).Nodup →
        (generationCalls users).length < users.length) := by
  have hparse : ∀ k ∈ combinationKeys users, (parseCombinationKey k).isSome := by
    intro k hk
    obtain ⟨s, l, _, hp⟩ := combinationKeys_parse users k hk
    simp [hp]
  have h1 : (generationCalls users).length = (combinationKeys users).length :=
    length_filterMap_of_forall_isSome _ _ hparse
  have h2 : (generatePromptsForAllCombinations gen users).length
      = (combinationKeys users).length := by
    refine length_filterMap_of_forall_isSome _ _ ?_
    intro k hk
    obtain ⟨s, l, _, hp⟩ := combinationKeys_parse users k hk
    simp [hp]
  have hle : ((users.map (fun u => (u.skillLevel, u.language))).toFinset).card
      ≤ users.length := by
    calc ((users.map (fun u => (u.skillLevel, u.language))).toFinset).card
        ≤ (users.map (fun u => (u.skillLevel, u.language))).length :=
          List.toFinset_card_le _
      _ = users.length := List.length_map _ _
  refine ⟨h1.trans (length_combinationKeys users),
          h2.trans (length_combinationKeys users), hle, ?_⟩
  intro hnd
  have hne : ((users.map (fun u => (u.skillLevel, u.language))).toFinset).card
      ≠ (users.map (fun u => (u.skillLevel, u.language))).length := by
    intro h
    exact hnd ((toFinset_card_eq_length_iff _).mp h)
  rw [h1, length_combinationKeys users]
  have := List.length_map users (fun u => (u.skillLevel, u.language))
  omega

/-- Witness for C1 at a concrete three-subscriber list containing a
duplicated (beginner, ro) pair: two distinct pairs, two calls, strictly
fewer than three subscribers. -/
theorem generatePrompts_calls_witness :
    ((wUsersDup.map (fun u => (u.skillLevel, u.language))).toFinset).card = 2
  ∧ (generationCalls wUsersDup).length
      = ((wUsersDup.map (fun u => (u.skillLevel, u.language))).toFinset).card
  ∧ (generationCalls wUsersDup).length < wUsersDup.length :=
  ⟨by decide, (generatePrompts_calls_eq_distinct_pairs wGen wUsersDup).1,
   (generatePrompts_calls_eq_distinct_pairs wGen wUsersDup).2.2.2 (by decide)⟩

theorem buildMessages_ok_of_lookup (users' : List User)
    (prompts : List (String × PaintingPrompt))
    (h : ∀ u ∈ users',
      ∃ p, lookupData prompts (getCombinationKey u.skillLevel u.language) = some p) :
    ∃ ms, buildMessages users' prompts = Except.ok ms := by
  induction users' with
  | nil => exact ⟨[], rfl⟩
  | cons u rest ih =>
    obtain ⟨p, hp⟩ := h u (List.mem_cons_self u rest)
    obtain ⟨ms, hms⟩ := ih fun x hx => h x (List.mem_cons_of_mem _ hx)
    exact ⟨⟨u.phoneNumber, p.text, some p.imageUrl⟩ :: ms, by simp [buildMessages, hp, hms]⟩

/-- C10: when the prompts map passed to `sendPromptsToUsers` is the one
`generatePromptsForAllCombinations` produced from the same user list, the
per-user map lookup always succeeds, so the
`No prompt found for combination` error branch is unreachable. -/
theorem buildMessages_lookup_total (gen : SkillLevel → Language → PaintingPrompt)
    (users : List User) :
    ∃ ms, buildMessages users (generatePromptsForAllCombinations gen users)
      = Except.ok ms := by
  apply buildMessages_ok_of_lookup
  intro u hu
  have hk : getCombinationKey u.skillLevel u.language ∈ combinationKeys users :=
    (mem_combinationKeys users _).mpr (List.mem_map_of_mem _ hu)
  have hmem : (getCombinationKey u.skillLevel u.language, gen u.skillLevel u.language)
      ∈ generatePromptsForAllCombinations gen users := by
    refine List.mem_filterMap.mpr ⟨_, hk, ?_⟩
    rw [parseCombinationKey_getCombinationKey]
    rfl
  exact lookupData_isSome_of_mem hmem

/-- C7: an empty active-subscriber snapshot short-circuits the batch run to
the all-zero empty report, with no generation call and no send call. -/
theorem executeDailyDelivery_empty_report (deps : SchedulerDeps)
    (h : deps.activeUsers = []) :
    executeDailyDelivery deps = Except.ok ⟨createEmptyReport, [], [], []⟩
  ∧ createEmptyReport.totalUsers = 0 ∧ createEmptyReport.successCount = 0
  ∧ createEmptyReport.failureCount = 0 ∧ createEmptyReport.promptsGenerated = 0
  ∧ createEmptyReport.imagesGenerated = 0 := by
  refine ⟨?_, rfl, rfl, rfl, rfl, rfl⟩
  simp [executeDailyDelivery, h]

/-- Witness for C7 at the concrete empty snapshot. -/
theorem executeDailyDelivery_empty_witness :
    wEmptyDeps.activeUsers = []
  ∧ executeDailyDelivery wEmptyDeps = Except.ok ⟨createEmptyReport, [], [], []⟩ :=
  ⟨rfl, (executeDailyDelivery_empty_report wEmptyDeps rfl).1⟩

/-- C2: whenever AI generation fails for any reason, `generatePromptWithRetry`
catches the error and returns the Fallback Catalog's prompt for the same
(skill level, language) — non-empty text, non-empty image reference — and,
being a total function, never propagates an exception to its caller. -/
theorem generatePromptWithRetry_fallback (textRes : Except String String)
    (imageRes : String → Except String String) (rand : Nat)
    (s : SkillLevel) (l : Language) (e : String)
    (h : generatePrompt textRes imageRes s l = Except.error e) :
    generatePromptWithRetry textRes imageRes rand s l = getFallbackPrompt rand s l
  ∧ (generatePromptWithRetry textRes imageRes rand s l).text ≠ ""
  ∧ (generatePromptWithRetry textRes imageRes rand s l).imageUrl ≠ ""
  ∧ (generatePromptWithRetry textRes imageRes rand s l).skillLevel = s
  ∧ (generatePromptWithRetry textRes imageRes rand s l).language = l := by
  have heq : generatePromptWithRetry textRes imageRes rand s l
      = getFallbackPrompt rand s l := by
    simp [generatePromptWithRetry, h]
  refine ⟨heq, ?_, ?_, ?_, ?_⟩ <;> rw [heq]
  · exact (getFallbackPrompt_nonempty rand s l).1
  · exact (getFallbackPrompt_nonempty rand s l).2
  · exact (getFallbackPromptWith_fields fallbackPromptsData rand s l).1
  · exact (getFallbackPromptWith_fields fallbackPromptsData rand s l).2

/-- Witness for C2 at a concrete failing text-generation oracle. -/
theorem generatePromptWithRetry_fallback_witness :
    generatePromptWithRetry (Except.error ("API down")) (fun _ => Except.ok ("u")) 0
        SkillLevel.beginner Language.ro
      = getFallbackPrompt 0 SkillLevel.beginner Language.ro
  ∧ (generatePromptWithRetry (Except.error ("API down")) (fun _ => Except.ok ("u")) 0
        SkillLevel.beginner Language.ro).text ≠ "" :=
  ⟨(generatePromptWithRetry_fallback (Except.error ("API down")) (fun _ => Except.ok ("u"))
      0 SkillLevel.beginner Language.ro "API down" rfl).1,
   (generatePromptWithRetry_fallback (Except.error ("API down")) (fun _ => Except.ok ("u"))
      0 SkillLevel.beginner Language.ro "API down" rfl).2.1⟩

/-- C4: the Fallback Catalog lookup is total; on a key miss it falls back to
the same skill level under the default language `en`, and if that is also
absent it returns the one hard-coded generic prompt; in every case the
returned Prompt carries exactly the requested skill level and language. -/
theorem getFallbackPrompt_total_valid (data : List (String × List FallbackEntry))
    (rand : Nat) (s : SkillLevel) (l : Language) :
    (getFallbackPromptWith data rand s l).skillLevel = s
  ∧ (getFallbackPromptWith data rand s l).language = l
  ∧ (((lookupData data (skillLevelStr s ++ "-" ++ languageStr l)).getD []).length = 0 →
      ((lookupData data (skillLevelStr s ++ "-en")).getD []).length = 0 →
      getFallbackPromptWith data rand s l =
        ⟨"Paint something that inspires you today.",
         "https://imagedelivery.net/placeholder/default.jpg", s, l⟩)
  ∧ (((lookupData data (skillLevelStr s ++ "-" ++ languageStr l)).getD []).length = 0 →
      ((lookupData data (skillLevelStr s ++ "-en")).getD []).length ≠ 0 →
      ∃ e ∈ (lookupData data (skillLevelStr s ++ "-en")).getD [],
        getFallbackPromptWith data rand s l = ⟨e.text, e.imageUrl, s, l⟩) := by
  obtain ⟨hs, hl⟩ := getFallbackPromptWith_fields data rand s l
  refine ⟨hs, hl, ?_, ?_⟩
  · intro h1 h2
    simp [getFallbackPromptWith, h1, h2]
  · intro h1 h2
    obtain ⟨l₀, hl₀, hmem, _⟩ :=
      lookup_getD_mem data (skillLevelStr s ++ "-en") rand ⟨"", ""⟩ h2
    have h2' : l₀.length ≠ 0 := by simpa [hl₀] using h2
    have hne : l₀ ≠ [] := by
      intro hnil
      exact h2' (by simp [hnil])
    refine ⟨l₀.getD (rand % l₀.length) ⟨"", ""⟩, ?_, ?_⟩
    · rw [hl₀]
      simpa using hmem
    · simp [getFallbackPromptWith, h1, hl₀, h2', hne]

/-- Witness for C4 at the empty table: both lookups miss and the generic
prompt is returned, still carrying the requested tier and language. -/
theorem getFallbackPrompt_total_valid_witness :
    (getFallbackPromptWith [] 0 SkillLevel.beginner Language.ro).skillLevel
        = SkillLevel.beginner
  ∧ (getFallbackPromptWith [] 0 SkillLevel.beginner Language.ro).language = Language.ro
  ∧ getFallbackPromptWith [] 0 SkillLevel.beginner Language.ro =
      ⟨"Paint something that inspires you today.",
       "https://imagedelivery.net/placeholder/default.jpg",
       SkillLevel.beginner, Language.ro⟩ :=
  ⟨(getFallbackPrompt_total_valid [] 0 SkillLevel.beginner Language.ro).1,
   (getFallbackPrompt_total_valid [] 0 SkillLevel.beginner Language.ro).2.1,
   (getFallbackPrompt_total_valid [] 0 SkillLevel.beginner Language.ro).2.2.1 rfl rfl⟩

theorem length_filter_not_add {α : Type} (p : α → Bool) (l : List α) :
    (l.filter (fun a => !(p a))).length + (l.filter p).length = l.length := by
  induction l with
  | nil => rfl
  | cons a rest ih =>
    cases h : p a <;> simp [List.filter_cons, h] <;> omega

theorem foldl_bulkStep (sendOne : BulkMessage → Except String SendResult)
    (msgs : List BulkMessage) (acc : BulkSendResult) :
    msgs.foldl (bulkStep sendOne) acc =
      ⟨acc.totalSent + (msgs.filter (fun m => !(attemptFailed sendOne m))).length,
       acc.totalFailed + (msgs.filter (attemptFailed sendOne)).length,
       acc.failures ++ (msgs.filter (attemptFailed sendOne)).map
         (fun m => ⟨m.phoneNumber, attemptError sendOne m⟩)⟩ := by
  induction msgs generalizing acc with
  | nil => simp
  | cons m rest ih =>
    rw [List.foldl_cons, ih]
    cases h : sendOne m with
    | ok r =>
      cases hr : r.success with
      | true =>
        simp [bulkStep, attemptFailed, attemptError, h, hr, List.filter_cons]
        try omega
      | false =>
        simp [bulkStep, attemptFailed, attemptError, h, hr, List.filter_cons]
        try omega
    | error e =>
      simp [bulkStep, attemptFailed, attemptError, h, List.filter_cons]
      try omega

/-- C3: for every list of `M` bulk messages of which `N` individual sends
fail (returned failures and thrown exceptions alike), `sendBulkMessages`
returns `totalSent = M - N`, `totalFailed = N`, and exactly one
`(recipient, error)` failures entry per failed recipient, in order; being a
total function, it lets no exception escape and a failure for one recipient
never stops the processing of later ones. -/
theorem sendBulkMessages_partial_failure (sendOne : BulkMessage → Except String SendResult)
    (messages : List BulkMessage) :
    (sendBulkMessages sendOne messages).totalSent
        = messages.length - (messages.filter (attemptFailed sendOne)).length
  ∧ (sendBulkMessages sendOne messages).totalFailed
        = (messages.filter (attemptFailed sendOne)).length
  ∧ (sendBulkMessages sendOne messages).failures
        = (messages.filter (attemptFailed sendOne)).map
            (fun m => ⟨m.phoneNumber, attemptError sendOne m⟩) := by
  have h := foldl_bulkStep sendOne messages ⟨0, 0, []⟩
  have hsum := length_filter_not_add (attemptFailed sendOne) messages
  rw [sendBulkMessages, h]
  refine ⟨by simp; omega, by simp, by simp⟩

theorem foldl_reconcile (updateOk : String → Bool) (failures : List BulkFailure)
    (users : List User) (acc : List String) :
    users.foldl
      (fun advanced u =>
        if failures.any (fun f => f.phoneNumber == u.phoneNumber) then advanced
        else if updateOk u.phoneNumber then advanced ++ [u.phoneNumber]
        else advanced)
      acc
    = acc ++ (users.filter (fun u =>
        !(failures.any (fun f => f.phoneNumber == u.phoneNumber))
          && updateOk u.phoneNumber)).map (fun u => u.phoneNumber) := by
  induction users generalizing acc with
  | nil => simp
  | cons u rest ih =>
    cases hfail : failures.any (fun f => f.phoneNumber == u.phoneNumber) with
    | true =>
      rw [List.foldl_cons, if_pos hfail, ih]
      simp [List.filter_cons, hfail]
    | false =>
      cases hup : updateOk u.phoneNumber with
      | true =>
        rw [List.foldl_cons, if_neg (by simp [hfail]), if_pos hup, ih]
        simp [List.filter_cons, hfail, hup]
      | false =>
        rw [List.foldl_cons, if_neg (by simp [hfail]), if_neg (by simp [hup]), ih]
        simp [List.filter_cons, hfail, hup]

theorem reconcile_eq_filter_map (updateOk : String → Bool) (users : List User)
    (failures : List BulkFailure) :
    reconcile updateOk users failures
      = (users.filter (fun u =>
          !(failures.any (fun f => f.phoneNumber == u.phoneNumber))
            && updateOk u.phoneNumber)).map (fun u => u.phoneNumber) := by
  simpa [reconcile] using foldl_reconcile updateOk failures users []

/-- C9: after bulk delivery, `sendPromptsToUsers` attempts a last-delivery
timestamp update exactly for the recipients absent from the bulk failures
list: every such recipient whose update succeeds is advanced, no recipient
present in the failures list is ever advanced, and update failures (the
caught per-recipient exceptions) change neither the other recipients'
updates nor the success/failure counts the run returns. -/
theorem sendPromptsToUsers_reconcile (sendOne : BulkMessage → Except String SendResult)
    (updateOk updateOk' : String → Bool) (users : List User)
    (prompts : List (String × PaintingPrompt)) (r : SendRun)
    (h : sendPromptsToUsers sendOne updateOk users prompts = Except.ok r) :
    (∀ u ∈ users, ¬ (∃ f ∈ r.result.failures, f.phoneNumber = u.phoneNumber) →
        updateOk u.phoneNumber = true → u.phoneNumber ∈ r.advanced)
  ∧ (∀ u ∈ users, (∃ f ∈ r.result.failures, f.phoneNumber = u.phoneNumber) →
        u.phoneNumber ∉ r.advanced)
  ∧ (∃ r', sendPromptsToUsers sendOne updateOk' users prompts = Except.ok r'
        ∧ r'.result = r.result ∧ r'.messages = r.messages) := by
  unfold sendPromptsToUsers at h
  cases hb : buildMessages users prompts with
  | error e => rw [hb] at h; cases h
  | ok ms =>
    rw [hb] at h
    simp only [Except.ok.injEq] at h
    subst h
    refine ⟨?_, ?_, ?_⟩
    · intro u hu hnf hup
      simp only [reconcile_eq_filter_map]
      refine List.mem_map.mpr ⟨u, List.mem_filter.mpr ⟨hu, ?_⟩, rfl⟩
      simp only [Bool.and_eq_true, Bool.not_eq_true', hup, and_true]
      rw [List.any_eq_false]
      intro f hf heq
      exact hnf ⟨f, hf, by simpa using heq⟩
    · intro u hu hf hmem
      simp only [reconcile_eq_filter_map] at hmem
      obtain ⟨u', hu', hphone⟩ := List.mem_map.mp hmem
      have hcond := (List.mem_filter.mp hu').2
      simp only [Bool.and_eq_true, Bool.not_eq_true'] at hcond
      obtain ⟨f, hfmem, hfeq⟩ := hf
      have := List.any_eq_false.mp hcond.1 f hfmem
      simp only [beq_eq_false_iff_ne, ne_eq] at this
      apply this
      rw [hfeq, ← hphone]
      simp
    · refine ⟨⟨sendBulkMessages sendOne ms, ms,
        reconcile updateOk' users (sendBulkMessages sendOne ms).failures⟩, ?_, rfl, rfl⟩
      unfold sendPromptsToUsers
      rw [hb]

/-- Witness for C9 at a concrete one-subscriber run whose send succeeds and
whose update succeeds: the subscriber's timestamp is advanced. -/
theorem sendPromptsToUsers_reconcile_witness :
    wUser.phoneNumber ∈ wRunOne.advanced := by
  have h : sendPromptsToUsers wSendOne (fun _ => true) wUsersOne wPromptsOne
      = Except.ok wRunOne := by rfl
  exact (sendPromptsToUsers_reconcile wSendOne (fun _ => true) (fun _ => true)
      wUsersOne wPromptsOne wRunOne h).1 wUser (by decide) (by simp [wRunOne]) rfl

/-- C8: an on-demand prompt request from an unknown phone number or from an
inactive subscriber returns the domain not-subscribed message (no
exception), with no generation call and no send call. -/
theorem handleGetPrompt_not_subscribed (deps : PromptHandlerDeps) (phoneNumber : String)
    (h : deps.getUser phoneNumber = Except.ok none
       ∨ ∃ u, deps.getUser phoneNumber = Except.ok (some u) ∧ u.isActive = false) :
    handleGetPrompt deps phoneNumber
      = ⟨getMessage MessageKey.errorNotSubscribed DEFAULT_LANGUAGE none, [], []⟩ := by
  rcases h with h | ⟨u, h, hin⟩
  · simp [handleGetPrompt, h]
  · simp [handleGetPrompt, h, hin]

/-- Witness for C8 at a concrete repository knowing only an inactive
subscriber. -/
theorem handleGetPrompt_not_subscribed_witness :
    handleGetPrompt wInactiveHandlerDeps "+40700000002"
      = ⟨getMessage MessageKey.errorNotSubscribed DEFAULT_LANGUAGE none, [], []⟩ :=
  handleGetPrompt_not_subscribed wInactiveHandlerDeps "+40700000002"
    (Or.inr ⟨wInactiveUser, rfl, rfl⟩)

/-- Counterexample for C5: with the default 3 attempts and base delay
1000 ms, a run whose attempts all fail sleeps only `[1000, 2000]` —
not the claimed `base, 2×base, 4×base` schedule `[1000, 2000, 4000]`
(the loop throws on the last attempt instead of sleeping `4×base`). -/
theorem generateTextPrompt_delays_cex :
    (generateTextPrompt (fun _ => Except.error ("boom")) 3 1000).delays = [1000, 2000]
  ∧ (generateTextPrompt (fun _ => Except.error ("boom")) 3 1000).delays
      ≠ [1000, 2000, 4000] := by
  exact ⟨rfl, by decide⟩

theorem retryGo_three_fail {α : Type} (f : Nat → Except String α) (base : Nat)
    (finalErr : String → String)
    (h : ∀ i, i < 3 → ∃ e, f i = Except.error e) :
    (∃ msg, (retryGo f 3 base finalErr 3).result = Except.error msg)
  ∧ (retryGo f 3 base finalErr 3).delays = [base, 2 * base]
  ∧ (retryGo f 3 base finalErr 3).attempts = [0, 1, 2] := by
  obtain ⟨e0, h0⟩ := h 0 (by omega)
  obtain ⟨e1, h1⟩ := h 1 (by omega)
  obtain ⟨e2, h2⟩ := h 2 (by omega)
  refine ⟨⟨finalErr e2, ?_⟩, ?_, ?_⟩ <;>
    simp [retryGo, h0, h1, h2, pow_succ, Nat.mul_comm]

/-- C5 (amended): with the default bound of 3 attempts, the Generation
Client retries failed text and image generation sleeping `base * 2 ^ k`
after the `k`-th failed attempt for `k = 0, 1` — i.e. delays `base` and
`2×base`; the `4×base` delay never occurs because the third failed attempt
immediately surfaces an error to the caller instead of sleeping. -/
theorem retry_backoff_exhaustion_spec (base : Nat)
    (textAttempts : Nat → Except String String)
    (imageAttempts : String → Nat → Except String String)
    (promptText : String) (s : SkillLevel) (l : Language)
    (ht : ∀ i, i < 3 → ∃ e, textAttempts i = Except.error e)
    (hi : ∀ i, i < 3 → ∃ e,
      imageAttempts (buildImagePrompt (extractVisualKeywords promptText) s l) i
        = Except.error e) :
    ((∃ msg, (generateTextPrompt textAttempts 3 base).result = Except.error msg)
      ∧ (generateTextPrompt textAttempts 3 base).delays = [base, 2 * base]
      ∧ (generateTextPrompt textAttempts 3 base).attempts = [0, 1, 2])
  ∧ ((∃ msg, (generateImage imageAttempts 3 base promptText s l).result
        = Except.error msg)
      ∧ (generateImage imageAttempts 3 base promptText s l).delays = [base, 2 * base]
      ∧ (generateImage imageAttempts 3 base promptText s l).attempts = [0, 1, 2]) :=
  ⟨retryGo_three_fail textAttempts base _ ht,
   retryGo_three_fail (imageAttempts (buildImagePrompt (extractVisualKeywords promptText) s l))
     base _ hi⟩

/-- Witness for the amended C5 at concrete always-failing attempt oracles. -/
theorem retry_backoff_exhaustion_witness :
    (generateTextPrompt (fun _ => Except.error ("down")) 3 1000).delays = [1000, 2 * 1000]
  ∧ (generateImage (fun _ _ => Except.error ("down")) 3 1000 "x"
      SkillLevel.beginner Language.ro).delays = [1000, 2 * 1000] :=
  ⟨(retry_backoff_exhaustion_spec 1000 (fun _ => Except.error ("down"))
      (fun _ _ => Except.error ("down")) "x" SkillLevel.beginner Language.ro
      (fun _ _ => ⟨"down", rfl⟩) (fun _ _ => ⟨"down", rfl⟩)).1.2.1,
   (retry_backoff_exhaustion_spec 1000 (fun _ => Except.error ("down"))
      (fun _ _ => Except.error ("down")) "x" SkillLevel.beginner Language.ro
      (fun _ _ => ⟨"down", rfl⟩) (fun _ _ => ⟨"down", rfl⟩)).2.2.1⟩

/-- Counterexample for C6: the code also removes every token of length at
most 3, which the claim does not allow — on the text `"red sky"`, the
non-stop-word token `red` is among the first 10 distinct survivors of the
claimed pipeline, yet the code's output is empty. -/
theorem extractVisualKeywords_short_token_cex :
    extractVisualKeywords "red sky" = ""
  ∧ "red" ∈ claimedVisualTokens "red sky"
  ∧ ¬ "red" ∈ fillerWords := by
  exact ⟨rfl, by decide, by decide⟩

/-- C6 (amended): the keyword derivation lower-cases the text, strips
punctuation, removes the stop-words and every token of length ≤ 3, and
keeps the first 10 distinct remaining tokens in order of first occurrence,
joined by single spaces; every kept token is longer than 3 characters and
not a stop-word, and the kept tokens are pairwise distinct and at most 10. -/
theorem extractVisualKeywords_spec (promptText : String) :
    extractVisualKeywords promptText = joinWith (" ") (specVisualTokens promptText)
  ∧ (specVisualTokens promptText).Nodup
  ∧ (specVisualTokens promptText).length ≤ 10
  ∧ ∀ w ∈ specVisualTokens promptText, 3 < w.length ∧ ¬ w ∈ fillerWords := by
  refine ⟨rfl, ?_, ?_, ?_⟩
  · exact List.Nodup.sublist (List.take_sublist _ _) (nodup_dedupFirst _)
  · exact List.length_take_le _ _
  · intro w hw
    have hw' := List.mem_of_mem_take hw
    rw [mem_dedupFirst] at hw'
    have hc := (List.mem_filter.mp hw').2
    simpa using hc

/-- Witness for the amended C6 at a concrete text and a concrete kept
token. -/
theorem extractVisualKeywords_spec_witness :
    extractVisualKeywords "Misty mountains, calm lake."
      = joinWith (" ") (specVisualTokens "Misty mountains, calm lake.")
  ∧ (3 < "misty".length ∧ ¬ "misty" ∈ fillerWords) :=
  ⟨(extractVisualKeywords_spec "Misty mountains, calm lake.").1,
   (extractVisualKeywords_spec "Misty mountains, calm lake.").2.2.2 "misty" (by decide)⟩

end Bot
